import Mathlib

/-!
Shallow embedding of the ticket redemption logic of the scanner screen
(`app/scanner.tsx`) and of the password-hashing helpers
(`utils/securityUtils.ts`) of the Mi3AD event-ticketing application,
together with proofs about the classification, redemption and reset
operations.
-/

/-- Booking status as read by the scanner: `confirmed`, `used` or `cancelled`. -/
inductive BookingStatus
  | confirmed
  | used
  | cancelled
deriving DecidableEq

/-- One booking record, with the fields the scanner reads:
`id`, `qrCode`, `status`, `ticketCount`, `totalPrice`.
The scanner only compares `totalPrice` against zero and renders it in a
message, so a natural number faithfully carries the behaviour used here. -/
structure Booking where
  id : String
  qrCode : String
  status : BookingStatus
  ticketCount : Nat
  totalPrice : Nat
deriving DecidableEq

/-- The `type` field of a `scanResult`: `success`, `error` or `warning`. -/
inductive ResultType
  | success
  | error
  | warning
deriving DecidableEq

/-- The `scanResult` record set by `processQRCode`. -/
structure ScanResult where
  type : ResultType
  title : String
  message : String
deriving DecidableEq

/-- The price fragment of the messages:
`totalPrice === 0 ? 'مجاني' : totalPrice + ' د.ل'`. -/
def priceText (totalPrice : Nat) : String :=
  if totalPrice = 0 then "مجاني" else toString totalPrice ++ " د.ل"

/-- Message of the already-used branch of `processQRCode`, surfacing
`ticketCount` and `totalPrice`. -/
def usedMessage (ticketCount totalPrice : Nat) : String :=
  "تم استخدام هذه التذكرة مسبقاً\nعدد التذاكر: " ++ toString ticketCount
    ++ "\nالسعر: " ++ priceText totalPrice

/-- Message of the valid-ticket branch of `processQRCode`, surfacing
`ticketCount` and `totalPrice`. -/
def validMessage (ticketCount totalPrice : Nat) : String :=
  "تذكرة صحيحة!\nعدد التذاكر: " ++ toString ticketCount
    ++ "\nالسعر: " ++ priceText totalPrice

/-- Result set when no booking matches the scanned code. -/
def notFoundResult : ScanResult :=
  ⟨.error, "تذكرة غير صالحة ❌",
    "رمز QR غير صحيح أو التذكرة غير موجودة في النظام"⟩

/-- Result set when the matched booking is already used. -/
def usedResult (b : Booking) : ScanResult :=
  ⟨.warning, "تذكرة مستخدمة ⚠️", usedMessage b.ticketCount b.totalPrice⟩

/-- Result set when the matched booking is cancelled. -/
def cancelledResult : ScanResult :=
  ⟨.error, "تذكرة ملغاة ❌", "هذه التذكرة تم إلغاؤها ولا يمكن استخدامها"⟩

/-- Result set when the matched booking is confirmed (valid ticket). -/
def validResult (b : Booking) : ScanResult :=
  ⟨.success, "تذكرة صالحة ✅", validMessage b.ticketCount b.totalPrice⟩

/-- The classification performed by `processQRCode`: look the booking up by
exact, case-sensitive `qrCode` equality (`bookings.find(b => b.qrCode === data)`)
and branch on its status, checking `used` first, then `cancelled`,
otherwise valid. -/
def classify (bookings : List Booking) (data : String) : ScanResult :=
  match bookings.find? (fun b => b.qrCode == data) with
  | none => notFoundResult
  | some b =>
    if b.status = .used then usedResult b
    else if b.status = .cancelled then cancelledResult
    else validResult b

/-- The scanner screen state the redemption logic touches: the booking list
from the events context, the `scanned` flag, the displayed `scanResult`,
the manual-entry text, the `lastScannedCode` ref and whether the
reset-delay timeout of `resetScanner` is pending. -/
structure ScannerState where
  bookings : List Booking
  scanned : Bool
  scanResult : Option ScanResult
  manualQRCode : String
  lastScannedCode : String
  scanTimeoutPending : Bool
deriving DecidableEq

/-- `processQRCode(data)`: set `scanned`, remember `lastScannedCode`, and set
`scanResult` from the classification. The booking list is never written. -/
def processQRCode (s : ScannerState) (data : String) : ScannerState :=
  { s with scanned := true, lastScannedCode := data,
           scanResult := some (classify s.bookings data) }

/-- `handleBarCodeScanned`: return immediately when `scanned` is set or the
code equals `lastScannedCode.current`; otherwise clear the pending debounce
timeout and process the code. -/
def handleBarCodeScanned (s : ScannerState) (data : String) : ScannerState :=
  if s.scanned || data == s.lastScannedCode then s
  else processQRCode { s with scanTimeoutPending := false } data

/-- `handleManualQRSubmit`: reject an empty (trimmed) manual code with an
alert and no state change; otherwise process the trimmed code. -/
def handleManualQRSubmit (s : ScannerState) : ScannerState :=
  if s.manualQRCode.trim = "" then s
  else processQRCode s s.manualQRCode.trim

/-- Modelled from the spec: `markTicketAsUsed(bookingId)` of the events
context is not among the surveyed files; per the spec the booking store is
"mutated (status only) by the redemption engine's commit step" and the
source performs a plain "`find` then `markTicketAsUsed`" read-then-write,
so the operation writes status `used` on the booking with the given id and
leaves every other field and booking unchanged. -/
def markTicketAsUsed (bookings : List Booking) (bookingId : String) : List Booking :=
  bookings.map (fun b => if b.id == bookingId then { b with status := .used } else b)

/-- Title and message of an `Alert.alert` call. -/
structure AlertMsg where
  title : String
  message : String
deriving DecidableEq

/-- The success alert shown by `confirmEntry`. -/
def entryConfirmedAlert : AlertMsg :=
  ⟨"تم تأكيد الدخول! 🎉", "تم تسجيل دخول الضيف بنجاح"⟩

/-- `confirmEntry`: re-find the booking by `lastScannedCode`; only when it
exists and its status is still `confirmed`, mark it used and show the
success alert. In every other case the function falls through: no
mutation, no alert, no result of any kind. The `catch` branch of the
source is unreachable here because the modelled store operation is total. -/
def confirmEntry (s : ScannerState) : ScannerState × Option AlertMsg :=
  match s.bookings.find? (fun b => b.qrCode == s.lastScannedCode) with
  | some b =>
    if b.status = .confirmed then
      ({ s with bookings := markTicketAsUsed s.bookings b.id }, some entryConfirmedAlert)
    else (s, none)
  | none => (s, none)

/-- `resetScanner`: clear `scanned`, `scanResult`, `lastScannedCode` and the
manual code, and (re)arm the one-second timeout that clears `scanned` again. -/
def resetScanner (s : ScannerState) : ScannerState :=
  { s with scanned := false, scanResult := none, lastScannedCode := "",
           manualQRCode := "", scanTimeoutPending := true }

/-- Firing of the timeout armed by `resetScanner`: clears `scanned`. -/
def scanTimeoutFire (s : ScannerState) : ScannerState :=
  if s.scanTimeoutPending then
    { s with scanned := false, scanTimeoutPending := false }
  else s

/-- The operations the scanner screen can perform on its state. -/
inductive Op
  | scan (data : String)
  | manual
  | commit
  | reset
  | timerFire

/-- One step of the scanner: dispatch an operation. -/
def stepOp (s : ScannerState) : Op → ScannerState
  | .scan data => handleBarCodeScanned s data
  | .manual => handleManualQRSubmit s
  | .commit => (confirmEntry s).1
  | .reset => resetScanner s
  | .timerFire => scanTimeoutFire s

/-- Run a sequence of scanner operations. -/
def runOps (s : ScannerState) (ops : List Op) : ScannerState :=
  ops.foldl stepOp s

/-- Run `confirmEntry` a given number of times in sequence, collecting the
alert (or absence of one) produced by each attempt. -/
def commitRun (s : ScannerState) : Nat → ScannerState × List (Option AlertMsg)
  | 0 => (s, [])
  | n + 1 =>
    let p := confirmEntry s
    let q := commitRun p.1 n
    (q.1, p.2 :: q.2)

/-- `hashPassword(password, salt?)` of `utils/securityUtils.ts`. On each
platform branch the hash is a platform digest of `password + passwordSalt`
(SHA-256 on web and native, `btoa` in the fallback); the digest primitive
is an external platform API, so it is a parameter `digest` here. The salt
defaults with JavaScript truthiness, `salt || <fresh random salt>`: an
absent salt AND an empty-string salt both pick the freshly generated salt,
modelled by the parameter `rnd`. Returns `(hash, salt)`. -/
def hashPassword (digest : String → String) (rnd : String)
    (password : String) (salt : Option String) : String × String :=
  let passwordSalt :=
    match salt with
    | some s => if s = "" then rnd else s
    | none => rnd
  (digest (password ++ passwordSalt), passwordSalt)

/-- `verifyPassword(password, hash, salt)`: recompute
`hashPassword(password, salt)` and compare the hashes. `rnd` is the fresh
salt this call would generate if the provided salt were empty. -/
def verifyPassword (digest : String → String) (rnd : String)
    (password hash salt : String) : Bool :=
  (hashPassword digest rnd password (some salt)).1 == hash

/-- A confirmed, a used and a cancelled booking used as concrete inputs. -/
def bConfirmed : Booking :=
  ⟨"b1", "MI3AD-001", .confirmed, 2, 0⟩

/-- Concrete used booking. -/
def bUsed : Booking :=
  ⟨"b2", "MI3AD-002", .used, 3, 50⟩

/-- Concrete cancelled booking. -/
def bCancelled : Booking :=
  ⟨"b3", "MI3AD-003", .cancelled, 1, 25⟩

/-- A concrete scanner state over the three bookings, after the confirmed
booking's code has been scanned. -/
def exState : ScannerState :=
  ⟨[bConfirmed, bUsed, bCancelled], true,
    some (classify [bConfirmed, bUsed, bCancelled] "MI3AD-001"),
    "", "MI3AD-001", false⟩

/-- A concrete scanner state in which the last scanned code belongs to the
already-used booking. -/
def exStateUsed : ScannerState :=
  ⟨[bConfirmed, bUsed, bCancelled], true,
    some (classify [bConfirmed, bUsed, bCancelled] "MI3AD-002"),
    "", "MI3AD-002", false⟩

theorem find?_map_pres {p : Booking → Bool} {f : Booking → Booking}
    (hf : ∀ x, p (f x) = p x) :
    ∀ {l : List Booking} {b : Booking},
      l.find? p = some b → (l.map f).find? p = some (f b) := by
  intro l
  induction l with
  | nil => intro b h; simp [List.find?] at h
  | cons a t ih =>
    intro b h
    by_cases ha : p a = true
    · rw [List.find?_cons_of_pos _ ha] at h
      cases h
      exact List.find?_cons_of_pos _ (by rw [hf]; exact ha)
    · rw [List.find?_cons_of_neg _ ha] at h
      rw [List.map_cons, List.find?_cons_of_neg _ (by rw [hf]; exact ha)]
      exact ih h

theorem find?_qr_of_mem_nodup {l : List Booking} {b : Booking}
    (hnd : (l.map (fun x => x.qrCode)).Nodup) (hb : b ∈ l) :
    l.find? (fun x => x.qrCode == b.qrCode) = some b := by
  induction l with
  | nil => cases hb
  | cons a t ih =>
    rw [List.map_cons, List.nodup_cons] at hnd
    rcases List.mem_cons.mp hb with rfl | hbt
    · exact List.find?_cons_of_pos _ (by simp)
    · have hne : (a.qrCode == b.qrCode) ≠ true := by
        intro h
        exact hnd.1 (by
          rw [beq_iff_eq] at h
          rw [h]
          exact List.mem_map_of_mem _ hbt)
      have hstep := List.find?_cons_of_neg
        (p := fun x : Booking => x.qrCode == b.qrCode) (a := a) t hne
      rw [hstep]
      exact ih hnd.2 hbt

theorem markTicketAsUsed_ids (l : List Booking) (i : String) :
    (markTicketAsUsed l i).map (fun b => b.id) = l.map (fun b => b.id) := by
  induction l with
  | nil => rfl
  | cons a t ih =>
    by_cases h : (a.id == i) = true <;>
      simp_all [markTicketAsUsed, List.map_cons]

theorem confirmEntry_found_confirmed {s : ScannerState} {b : Booking}
    (h : s.bookings.find? (fun x => x.qrCode == s.lastScannedCode) = some b)
    (hc : b.status = .confirmed) :
    confirmEntry s =
      ({ s with bookings := markTicketAsUsed s.bookings b.id },
        some entryConfirmedAlert) := by
  unfold confirmEntry
  rw [h]
  simp [hc]

theorem confirmEntry_found_not_confirmed {s : ScannerState} {b : Booking}
    (h : s.bookings.find? (fun x => x.qrCode == s.lastScannedCode) = some b)
    (hc : b.status ≠ .confirmed) :
    confirmEntry s = (s, none) := by
  unfold confirmEntry
  rw [h]
  simp [hc]

theorem confirmEntry_not_found {s : ScannerState}
    (h : s.bookings.find? (fun x => x.qrCode == s.lastScannedCode) = none) :
    confirmEntry s = (s, none) := by
  unfold confirmEntry
  rw [h]

theorem find?_markTicketAsUsed {l : List Booking} {b : Booking} {code : String}
    (h : l.find? (fun x => x.qrCode == code) = some b) :
    (markTicketAsUsed l b.id).find? (fun x => x.qrCode == code) =
      some { b with status := BookingStatus.used } := by
  have hres := find?_map_pres
    (f := fun x => if x.id == b.id then { x with status := BookingStatus.used } else x)
    (fun x => by by_cases hx : (x.id == b.id) = true <;> simp [hx]) h
  simpa [markTicketAsUsed] using hres

theorem commitRun_fixed {s : ScannerState} (h : confirmEntry s = (s, none)) :
    ∀ n, commitRun s n = (s, List.replicate n none) := by
  intro n
  induction n with
  | zero => rfl
  | succ n ih => simp [commitRun, h, ih, List.replicate_succ]

theorem confirmEntry_bookings (s : ScannerState) :
    (confirmEntry s).1.bookings = s.bookings ∨
    ∃ bf, s.bookings.find? (fun x => x.qrCode == s.lastScannedCode) = some bf ∧
      bf.status = .confirmed ∧
      (confirmEntry s).1.bookings = markTicketAsUsed s.bookings bf.id := by
  unfold confirmEntry
  cases h : s.bookings.find? (fun x => x.qrCode == s.lastScannedCode) with
  | none => exact Or.inl rfl
  | some bf =>
    by_cases hc : bf.status = .confirmed
    · exact Or.inr ⟨bf, rfl, hc, by simp [hc]⟩
    · simp [hc]

theorem stepOp_ids (s : ScannerState) (op : Op) :
    ((stepOp s op).bookings).map (fun b => b.id) =
      (s.bookings).map (fun b => b.id) := by
  cases op with
  | scan data =>
    simp only [stepOp, handleBarCodeScanned]
    split <;> rfl
  | manual =>
    simp only [stepOp, handleManualQRSubmit]
    split <;> rfl
  | commit =>
    rcases confirmEntry_bookings s with h | ⟨bf, _, _, h⟩
    · rw [stepOp, h]
    · rw [stepOp, h, markTicketAsUsed_ids]
  | reset => rfl
  | timerFire =>
    simp only [stepOp, scanTimeoutFire]
    split <;> rfl

theorem stepOp_only_confirmed_to_used (s : ScannerState)
    (hid : ((s.bookings).map (fun b => b.id)).Nodup) (op : Op) :
    ∀ b' ∈ (stepOp s op).bookings,
      b' ∈ s.bookings ∨ ∃ b ∈ s.bookings,
        b.status = .confirmed ∧ b' = { b with status := BookingStatus.used } := by
  intro b' hb'
  cases op with
  | scan data =>
    revert hb'
    simp only [stepOp, handleBarCodeScanned]
    split
    · exact fun h => Or.inl h
    · exact fun h => Or.inl h
  | manual =>
    revert hb'
    simp only [stepOp, handleManualQRSubmit]
    split
    · exact fun h => Or.inl h
    · exact fun h => Or.inl h
  | commit =>
    rcases confirmEntry_bookings s with h | ⟨bf, hf, hc, h⟩
    · rw [stepOp] at hb'
      rw [h] at hb'
      exact Or.inl hb'
    · rw [stepOp] at hb'
      rw [h, markTicketAsUsed] at hb'
      rcases List.mem_map.mp hb' with ⟨b, hb, rfl⟩
      by_cases hbid : (b.id == bf.id) = true
      · have hbfmem : bf ∈ s.bookings := List.mem_of_find?_eq_some hf
        have : b = bf :=
          List.inj_on_of_nodup_map hid hb hbfmem (beq_iff_eq.mp hbid)
        subst this
        exact Or.inr ⟨b, hb, hc, by simp [hbid]⟩
      · simp only [hbid, if_false]
        exact Or.inl hb
  | reset => exact Or.inl hb'
  | timerFire =>
    revert hb'
    simp only [stepOp, scanTimeoutFire]
    split
    · exact fun h => Or.inl h
    · exact fun h => Or.inl h

theorem stepOp_terminal_mem (s : ScannerState)
    (hid : ((s.bookings).map (fun b => b.id)).Nodup) (op : Op) (b : Booking)
    (hb : b ∈ s.bookings) (hst : b.status = .used ∨ b.status = .cancelled) :
    b ∈ (stepOp s op).bookings := by
  cases op with
  | scan data =>
    simp only [stepOp, handleBarCodeScanned]
    split
    · exact hb
    · exact hb
  | manual =>
    simp only [stepOp, handleManualQRSubmit]
    split
    · exact hb
    · exact hb
  | commit =>
    rcases confirmEntry_bookings s with h | ⟨bf, hf, hc, h⟩
    · rw [stepOp, h]
      exact hb
    · rw [stepOp, h, markTicketAsUsed]
      have hne : (b.id == bf.id) ≠ true := by
        intro hbid
        have hbfmem : bf ∈ s.bookings := List.mem_of_find?_eq_some hf
        have heq : b = bf :=
          List.inj_on_of_nodup_map hid hb hbfmem (beq_iff_eq.mp hbid)
        rcases hst with h1 | h1 <;> rw [heq, hc] at h1 <;> cases h1
      have : (if b.id == bf.id then { b with status := BookingStatus.used } else b) = b := by
        simp [hne]
      rw [← this]
      exact List.mem_map_of_mem _ hb
  | reset => exact hb
  | timerFire =>
    simp only [stepOp, scanTimeoutFire]
    split
    · exact hb
    · exact hb

theorem runOps_terminal_mem (ops : List Op) :
    ∀ s : ScannerState, ((s.bookings).map (fun b => b.id)).Nodup →
      ∀ b ∈ s.bookings, b.status = .used ∨ b.status = .cancelled →
        b ∈ (runOps s ops).bookings := by
  induction ops with
  | nil => exact fun s _ b hb _ => hb
  | cons op t ih =>
    intro s hid b hb hst
    have hstep := stepOp_terminal_mem s hid op b hb hst
    have hid' : (((stepOp s op).bookings).map (fun x => x.id)).Nodup := by
      rw [stepOp_ids]
      exact hid
    exact ih (stepOp s op) hid' b hstep hst

/-- Claim C1, counterexample: run two commit attempts against the same
`confirmed` booking (N = 2, the sequential schedule, one legal interleaving
of N concurrent attempts). The first attempt succeeds with the confirmation
alert, but the losing attempt produces `none` — no alert, no result of any
kind — so it does not observe a `RaceLost` result as the claim states. -/
theorem C1_counterexample :
    (commitRun exState 2).2 = [some entryConfirmedAlert, none] := by decide

/-- Claim C1, amended: for N = n + 1 sequential commit attempts against a
booking that is found by `lastScannedCode` with status `confirmed`, exactly
the first attempt succeeds (shows the confirmation alert) and transitions
the booking to `used`; the remaining n attempts are silent no-ops producing
no result at all — the code has no `RaceLost` result — and the final status
of the booking is `used`, so no double redemption occurs in this model. -/
theorem C1_commit_exactly_once (s : ScannerState) (b : Booking) (n : Nat)
    (hb : s.bookings.find? (fun x => x.qrCode == s.lastScannedCode) = some b)
    (hc : b.status = .confirmed) :
    (commitRun s (n + 1)).2 = some entryConfirmedAlert :: List.replicate n none ∧
    ((commitRun s (n + 1)).1).bookings.find?
        (fun x => x.qrCode == s.lastScannedCode) =
      some { b with status := BookingStatus.used } := by
  have h1 := confirmEntry_found_confirmed hb hc
  have hf1 : ({ s with bookings := markTicketAsUsed s.bookings b.id } :
      ScannerState).bookings.find?
        (fun x => x.qrCode ==
          ({ s with bookings := markTicketAsUsed s.bookings b.id } :
            ScannerState).lastScannedCode) =
      some { b with status := BookingStatus.used } :=
    find?_markTicketAsUsed hb
  have h2 : confirmEntry { s with bookings := markTicketAsUsed s.bookings b.id } =
      ({ s with bookings := markTicketAsUsed s.bookings b.id }, none) :=
    confirmEntry_found_not_confirmed hf1
      (by intro h; exact BookingStatus.noConfusion h)
  have hrun := commitRun_fixed h2 n
  constructor
  · simp [commitRun, h1, hrun]
  · simp [commitRun, h1, hrun]
    exact find?_markTicketAsUsed hb

/-- Claim C1, witness: the amended statement at the concrete confirmed
booking with N = 2. -/
theorem C1_witness :
    (commitRun exState 2).2 = some entryConfirmedAlert :: List.replicate 1 none ∧
    ((commitRun exState 2).1).bookings.find?
        (fun x => x.qrCode == exState.lastScannedCode) =
      some { bConfirmed with status := BookingStatus.used } :=
  C1_commit_exactly_once exState bConfirmed 1 (by decide) (by decide)

/-- Claim C2, counterexample: a commit attempt against a booking whose
status is no longer `confirmed` (here `used`) returns the state unchanged
and `none`: a silent no-result outcome, not a typed `RaceLost` failure
result as the claim states. -/
theorem C2_counterexample : confirmEntry exStateUsed = (exStateUsed, none) := by
  decide

/-- Claim C2, amended: `confirmEntry` re-checks the booking's current
status; when the booking found by `lastScannedCode` is still `confirmed` it
marks it used and reports success, and in every other case — status no
longer `confirmed`, or no booking matches — it performs no mutation and
produces no result at all (a silent no-op; no `RaceLost` result exists). -/
theorem C2_commit_recheck (s : ScannerState) :
    (∀ b, s.bookings.find? (fun x => x.qrCode == s.lastScannedCode) = some b →
      (b.status = .confirmed →
        confirmEntry s =
          ({ s with bookings := markTicketAsUsed s.bookings b.id },
            some entryConfirmedAlert)) ∧
      (b.status ≠ .confirmed → confirmEntry s = (s, none))) ∧
    (s.bookings.find? (fun x => x.qrCode == s.lastScannedCode) = none →
      confirmEntry s = (s, none)) :=
  ⟨fun _ hb => ⟨fun hc => confirmEntry_found_confirmed hb hc,
      fun hc => confirmEntry_found_not_confirmed hb hc⟩,
    fun h => confirmEntry_not_found h⟩

/-- Claim C2, witness: the success branch of the amended statement at the
concrete confirmed booking. -/
theorem C2_witness :
    confirmEntry exState =
      ({ exState with bookings := markTicketAsUsed exState.bookings bConfirmed.id },
        some entryConfirmedAlert) :=
  ((C2_commit_recheck exState).1 bConfirmed (by decide)).1 (by decide)

/-- Claim C3: status transitions are monotonic. With unique booking ids,
every booking present after any single scanner operation is either an
unchanged original booking or an original `confirmed` booking with status
set to `used` (all other fields intact) — `confirmed → used` is the only
mutation — and across every sequence of scan/classify, commit and reset
operations, a booking whose status is `used` or `cancelled` is never
changed. -/
theorem C3_status_monotonic (s : ScannerState)
    (hid : ((s.bookings).map (fun b => b.id)).Nodup) :
    (∀ op : Op, ∀ b' ∈ (stepOp s op).bookings,
      b' ∈ s.bookings ∨ ∃ b ∈ s.bookings,
        b.status = .confirmed ∧ b' = { b with status := BookingStatus.used }) ∧
    (∀ ops : List Op, ∀ b ∈ s.bookings,
      b.status = .used ∨ b.status = .cancelled → b ∈ (runOps s ops).bookings) :=
  ⟨fun op => stepOp_only_confirmed_to_used s hid op,
    fun ops b hb hst => runOps_terminal_mem ops s hid b hb hst⟩

/-- Claim C3, witness: the used and the cancelled bookings survive a
commit / reset / commit sequence unchanged. -/
theorem C3_witness :
    bUsed ∈ (runOps exState [Op.commit, Op.reset, Op.commit]).bookings :=
  (C3_status_monotonic exState (by decide)).2 [Op.commit, Op.reset, Op.commit]
    bUsed (by decide) (by decide)

/-- Claim C4: for every code string that matches no booking's `qrCode`
(exact, case-sensitive equality), processing sets the not-found result —
an error whose message says the code corresponds to no known ticket — and
the booking list, every status and every other field, is unchanged. -/
theorem C4_classify_notFound (s : ScannerState) (code : String)
    (h : ∀ b ∈ s.bookings, b.qrCode ≠ code) :
    (processQRCode s code).scanResult =
      some ⟨ResultType.error, "تذكرة غير صالحة ❌",
        "رمز QR غير صحيح أو التذكرة غير موجودة في النظام"⟩ ∧
    (processQRCode s code).bookings = s.bookings := by
  constructor
  · have hn : s.bookings.find? (fun b => b.qrCode == code) = none := by
      rw [List.find?_eq_none]
      intro x hx
      simpa using h x hx
    simp [processQRCode, classify, hn, notFoundResult]
  · rfl

/-- Claim C4, witness: an unknown code on the concrete store. -/
theorem C4_witness :
    (processQRCode exState "DOES-NOT-EXIST").scanResult =
      some ⟨ResultType.error, "تذكرة غير صالحة ❌",
        "رمز QR غير صحيح أو التذكرة غير موجودة في النظام"⟩ ∧
    (processQRCode exState "DOES-NOT-EXIST").bookings = exState.bookings :=
  C4_classify_notFound exState "DOES-NOT-EXIST" (by decide)

/-- Claim C5: for every booking with status `used` in a store with unique
QR codes, classifying that booking's `qrCode` yields the already-used
warning whose message surfaces that booking's `ticketCount` and
`totalPrice`, and the booking list is not mutated. -/
theorem C5_classify_alreadyUsed (s : ScannerState) (b : Booking)
    (hnd : ((s.bookings).map (fun x => x.qrCode)).Nodup)
    (hb : b ∈ s.bookings) (hst : b.status = .used) :
    (processQRCode s b.qrCode).scanResult =
      some ⟨ResultType.warning, "تذكرة مستخدمة ⚠️",
        usedMessage b.ticketCount b.totalPrice⟩ ∧
    (processQRCode s b.qrCode).bookings = s.bookings := by
  constructor
  · have hf := find?_qr_of_mem_nodup hnd hb
    simp [processQRCode, classify, hf, hst, usedResult]
  · rfl

/-- Claim C5, witness: the concrete used booking. -/
theorem C5_witness :
    (processQRCode exState bUsed.qrCode).scanResult =
      some ⟨ResultType.warning, "تذكرة مستخدمة ⚠️",
        usedMessage bUsed.ticketCount bUsed.totalPrice⟩ ∧
    (processQRCode exState bUsed.qrCode).bookings = exState.bookings :=
  C5_classify_alreadyUsed exState bUsed (by decide) (by decide) (by decide)

/-- Claim C6: for every booking with status `cancelled` in a store with
unique QR codes, classifying that booking's `qrCode` yields the cancelled
rejection (an error result) and the booking list is not mutated. -/
theorem C6_classify_cancelled (s : ScannerState) (b : Booking)
    (hnd : ((s.bookings).map (fun x => x.qrCode)).Nodup)
    (hb : b ∈ s.bookings) (hst : b.status = .cancelled) :
    (processQRCode s b.qrCode).scanResult =
      some ⟨ResultType.error, "تذكرة ملغاة ❌",
        "هذه التذكرة تم إلغاؤها ولا يمكن استخدامها"⟩ ∧
    (processQRCode s b.qrCode).bookings = s.bookings := by
  constructor
  · have hf := find?_qr_of_mem_nodup hnd hb
    simp [processQRCode, classify, hf, hst, cancelledResult]
  · rfl

/-- Claim C6, witness: the concrete cancelled booking. -/
theorem C6_witness :
    (processQRCode exState bCancelled.qrCode).scanResult =
      some ⟨ResultType.error, "تذكرة ملغاة ❌",
        "هذه التذكرة تم إلغاؤها ولا يمكن استخدامها"⟩ ∧
    (processQRCode exState bCancelled.qrCode).bookings = exState.bookings :=
  C6_classify_cancelled exState bCancelled (by decide) (by decide) (by decide)

/-- Claim C7: for every booking with status `confirmed` in a store with
unique QR codes, classifying that booking's `qrCode` yields the valid
result (a success) carrying that booking's exact `ticketCount` and
`totalPrice` in its message, and the booking list is not mutated —
classification is read-only and commit is a separate step. -/
theorem C7_classify_valid (s : ScannerState) (b : Booking)
    (hnd : ((s.bookings).map (fun x => x.qrCode)).Nodup)
    (hb : b ∈ s.bookings) (hst : b.status = .confirmed) :
    (processQRCode s b.qrCode).scanResult =
      some ⟨ResultType.success, "تذكرة صالحة ✅",
        validMessage b.ticketCount b.totalPrice⟩ ∧
    (processQRCode s b.qrCode).bookings = s.bookings := by
  constructor
  · have hf := find?_qr_of_mem_nodup hnd hb
    simp [processQRCode, classify, hf, hst, validResult]
  · rfl

/-- Claim C7, witness: the concrete confirmed booking. -/
theorem C7_witness :
    (processQRCode exState bConfirmed.qrCode).scanResult =
      some ⟨ResultType.success, "تذكرة صالحة ✅",
        validMessage bConfirmed.ticketCount bConfirmed.totalPrice⟩ ∧
    (processQRCode exState bConfirmed.qrCode).bookings = exState.bookings :=
  C7_classify_valid exState bConfirmed (by decide) (by decide) (by decide)

theorem processQRCode_iterate_bookings (code : String) (n : Nat) :
    ∀ s : ScannerState,
      ((fun t => processQRCode t code)^[n] s).bookings = s.bookings := by
  induction n with
  | zero => exact fun s => rfl
  | succ n ih =>
    intro s
    rw [Function.iterate_succ_apply]
    exact ih (processQRCode s code)

/-- Claim C8: classification never mutates the booking set, and it is
idempotent — with no intervening commit, any number of repeated
`processQRCode` calls on the same code produce the identical classification
result as the first call. -/
theorem C8_classify_idempotent (s : ScannerState) (code : String) (n : Nat) :
    (processQRCode s code).bookings = s.bookings ∧
    ((fun t => processQRCode t code)^[n + 1] s).scanResult =
      (processQRCode s code).scanResult := by
  constructor
  · rfl
  · rw [Function.iterate_succ_apply']
    show some (classify ((fun t => processQRCode t code)^[n] s).bookings code) =
      some (classify s.bookings code)
    rw [processQRCode_iterate_bookings]

/-- A concrete idle scanner state: nothing scanned yet, but the previous
code is still remembered in `lastScannedCode`. -/
def exIdleState : ScannerState :=
  ⟨[bConfirmed, bUsed, bCancelled], false, none, "", "MI3AD-001", false⟩

/-- Claim C9: once a scan has been processed the `scanned` flag is set, and
while it is set every subsequent barcode event — any sequence of codes —
leaves the scanner state completely unchanged (no classification, no state
change); moreover an event whose code equals `lastScannedCode` is ignored
even when `scanned` is clear; and `processQRCode` always sets `scanned`,
which only `resetScanner`'s paths clear. -/
theorem C9_duplicate_scan_ignored :
    (∀ s : ScannerState, ∀ ds : List String, s.scanned = true →
      ds.foldl handleBarCodeScanned s = s) ∧
    (∀ s : ScannerState, ∀ d : String, s.scanned = false →
      d = s.lastScannedCode → handleBarCodeScanned s d = s) ∧
    (∀ s : ScannerState, ∀ d : String, (processQRCode s d).scanned = true) := by
  refine ⟨?_, ?_, fun s d => rfl⟩
  · intro s ds hs
    have hone : ∀ d, handleBarCodeScanned s d = s := by
      intro d
      simp [handleBarCodeScanned, hs]
    induction ds with
    | nil => rfl
    | cons d t ih =>
      rw [List.foldl_cons, hone d]
      exact ih
  · intro s d hs hd
    simp [handleBarCodeScanned, hs, hd]

/-- Claim C9, witness: two further barcode events after a processed scan
leave the state untouched, and the duplicate-code event is dropped in the
idle state. -/
theorem C9_witness :
    ["OTHER-1", "OTHER-2"].foldl handleBarCodeScanned exState = exState ∧
    handleBarCodeScanned exIdleState "MI3AD-001" = exIdleState :=
  ⟨C9_duplicate_scan_ignored.1 exState ["OTHER-1", "OTHER-2"] rfl,
    C9_duplicate_scan_ignored.2.1 exIdleState "MI3AD-001" rfl rfl⟩

/-- Claim C10, counterexample: when the salt generated inside
`hashPassword` is the empty string — reachable, since on the web branch the
fresh salt is `Math.random().toString(36).substring(2, 18)`, which is empty
when `Math.random()` yields `0` — the recorded salt is `""`, and
`verifyPassword` then hits the falsy `salt || …` default, regenerates a
fresh salt (here `"x"`) and compares hashes over different salted inputs:
the round-trip returns `false`. The identity function stands in for the
platform digest. -/
theorem C10_counterexample :
    verifyPassword (fun s => s) "x" "p"
      (hashPassword (fun s => s) "" "p" none).1
      (hashPassword (fun s => s) "" "p" none).2 = false := by decide

/-- Claim C10, amended: for every digest, password, and nonempty generated
salt, the hash/verify round-trip holds — `hashPassword password` returns
`(hash, salt)` with the generated salt, and `verifyPassword password hash
salt` recomputes the same digest over `password ++ salt` (whatever fresh
salt the verifying call would have generated) and returns `true`; the
nonemptiness proviso is forced by the falsy `salt || …` default. -/
theorem C10_verify_roundtrip (digest : String → String)
    (rnd rnd' password : String) (h : rnd ≠ "") :
    verifyPassword digest rnd' password
      (hashPassword digest rnd password none).1
      (hashPassword digest rnd password none).2 = true := by
  simp [verifyPassword, hashPassword, h]

/-- Claim C10, witness: the amended round-trip at a concrete password and
salt, with a different fresh salt available to the verifying call. -/
theorem C10_witness :
    verifyPassword (fun s => s) "y" "p"
      (hashPassword (fun s => s) "x" "p" none).1
      (hashPassword (fun s => s) "x" "p" none).2 = true :=
  C10_verify_roundtrip (fun s => s) "x" "y" "p" (by decide)
